import Mathlib

/-!
Shallow embedding of `price_finder.py` (eBay multi-region price scraper).

The Python source is embedded as executable Lean definitions:

* Python `str` values are Lean `String`s; the handful of `str` methods the
  source uses (`strip`, `lower`, `upper`, `split`, `replace`, the `in`
  substring test) are re-implemented structurally over `String.data`
  (ASCII case folding and ASCII whitespace, which covers every string the
  source manipulates).
* A BeautifulSoup listing card is a `Node`: either a well-formed node
  carrying exactly the four pieces of data `_extract_product_data` reads
  from it (class list, title text, price text, anchor href), or a
  `malformed` node whose attribute access raises — this models the parsing
  anomalies the source's `try/except` exists to catch.
* The HTTP layer is abstracted as an environment `String → String →
  FetchResult` mapping (query, region) to what `session.get` +
  BeautifulSoup parsing produce: either a raised client error
  (`FetchResult.failure`) or a response with a status code and the list of
  `div.s-item__wrapper` cards found in the body.  `response.raise_for_status()`
  raises exactly when the status is `≥ 400` (aiohttp's documented behavior).
* `ExcelExporter.export` is embedded as `exportProducts` over an abstract
  filesystem `String → WriteOutcome`; since the source recurses on every
  `PermissionError` with no bound, the embedding takes a fuel parameter and
  returns a `diverged` marker when fuel runs out.  The returned pair also
  records the list of file names a write was attempted on, so "writes no
  artifact" is statable.
-/

namespace PriceFinder

/-- Python `str.strip` / `str.lower` whitespace set (ASCII part). -/
def isSpaceChar (c : Char) : Bool :=
  c == ' ' || c == '\t' || c == '\n' || c == '\r' ||
  c == Char.ofNat 11 || c == Char.ofNat 12

/-- Characters of a string with leading and trailing whitespace removed,
modeling Python `str.strip()`. -/
def pyStripChars (l : List Char) : List Char :=
  ((l.dropWhile isSpaceChar).reverse.dropWhile isSpaceChar).reverse

/-- Python `str.strip()`. -/
def pyStrip (s : String) : String :=
  ⟨pyStripChars s.data⟩

/-- ASCII lower-casing of one character. -/
def lowerChar (c : Char) : Char :=
  if 'A' ≤ c ∧ c ≤ 'Z' then Char.ofNat (c.toNat + 32) else c

/-- ASCII upper-casing of one character. -/
def upperChar (c : Char) : Char :=
  if 'a' ≤ c ∧ c ≤ 'z' then Char.ofNat (c.toNat - 32) else c

/-- Python `str.lower()` (ASCII). -/
def pyLower (s : String) : String :=
  ⟨s.data.map lowerChar⟩

/-- Python `str.upper()` (ASCII). -/
def pyUpper (s : String) : String :=
  ⟨s.data.map upperChar⟩

/-- Does `needle` occur at the head of `hay`? -/
def leadsWith : List Char → List Char → Bool
  | [], _ => true
  | _ :: _, [] => false
  | a :: as, b :: bs => a == b && leadsWith as bs

/-- Does `needle` occur anywhere in `hay`? -/
def occursIn (needle : List Char) : List Char → Bool
  | [] => needle.isEmpty
  | c :: t => leadsWith needle (c :: t) || occursIn needle t

/-- Python's substring test `needle in hay`. -/
def strContains (hay needle : String) : Bool :=
  occursIn needle.data hay.data

/-- Python `href.split('?')[0]`: everything before the first `?`. -/
def pySplitHeadQ (s : String) : String :=
  ⟨s.data.takeWhile (fun a => a != '?')⟩

/-- Python `query.replace(' ', '_')`. -/
def pyReplaceSpace (s : String) : String :=
  ⟨s.data.map (fun c => if c = ' ' then '_' else c)⟩

/-- The `Product` dataclass of `price_finder.py`. -/
structure Product where
  name : String
  price : String
  url : String
  site : String
deriving DecidableEq, Repr

/-- One BeautifulSoup listing card, reduced to exactly what
`_extract_product_data` reads from it.  `node classes title price link`:
`classes` is `card.get('class', [])`; `title` is the text of
`card.select_one('div.s-item__title span')` when present; `price` is the
text of `card.select_one('.s-item__price')` when present; `link` is `none`
when `card.select_one('a.s-item__link')` is absent, `some none` when the
anchor has no `href` attribute, and `some (some h)` when it has `href = h`.
`malformed` is a node whose attribute access raises, modeling the parsing
anomalies the source's `try/except` catches. -/
inductive Node where
  | node (classes : List String) (title : Option String)
      (price : Option String) (link : Option (Option String))
  | malformed (msg : String)
deriving DecidableEq, Repr

/-- The pure body of `_extract_product_data` (lines 76–111), for a
well-formed card whose attribute accesses all succeed.  Mirrors the source
line by line; the Python local `name = title.strip()` (and likewise
`price`, `url`) is inlined as `pyStrip rawTitle` at each use site. -/
def extractCore (classes : List String) (title : Option String)
    (price : Option String) (link : Option (Option String))
    (region : String) : Option Product :=
  if "srp-river-answer" ∈ classes then none
  else
    match title with
    | none => none
    | some rawTitle =>
      if strContains rawTitle "New Listing" = true then none
      else
        if pyStrip rawTitle = "Shop on eBay" ∨
            strContains (pyLower (pyStrip rawTitle)) "shop on ebay" = true then none
        else
          match price with
          | none => none
          | some rawPrice =>
            if strContains (pyLower rawPrice) "to" = true then none
            else
              match link with
              | none => none
              | some none => none
              | some (some href) =>
                if href = "" then none
                else
                  if pyStrip rawTitle ≠ "" ∧ pyStrip rawPrice ≠ "" ∧
                      pySplitHeadQ href ≠ "" ∧ 5 < (pyStrip rawTitle).length then
                    some ⟨pyStrip rawTitle, pyStrip rawPrice, pySplitHeadQ href,
                      "eBay (" ++ pyUpper region ++ ")"⟩
                  else none

/-- The body of `_extract_product_data` before its `try/except`: a
malformed node raises (`Except.error`), a well-formed node runs the pure
extraction. -/
def extractStep : Node → String → Except String (Option Product)
  | .malformed m, _ => .error m
  | .node cs t p l, region => .ok (extractCore cs t p l region)

/-- `EbayPriceScraper._extract_product_data` (lines 74–115): the body
wrapped in the catch-all `except Exception` handler that turns any raised
anomaly into the rejection value `None`. -/
def extractProductData (card : Node) (region : String) : Option Product :=
  match extractStep card region with
  | .ok v => v
  | .error _ => none

/-- What one region's HTTP fetch plus BeautifulSoup parsing yields:
`failure m` models `session.get` (or reading the body) raising — network
error, timeout, TLS failure; `response status cards` models a completed
response with its status code and the list of `div.s-item__wrapper`
fragments found in the body. -/
inductive FetchResult where
  | failure (msg : String)
  | response (status : Nat) (cards : List Node)
deriving DecidableEq, Repr

/-- Does this fetch raise inside `_search_region`'s `try` block?  Either
`session.get` itself raised, or `response.raise_for_status()` raised,
which aiohttp does exactly when the status is `≥ 400`. -/
def fetchRaises : FetchResult → Bool
  | .failure _ => true
  | .response s _ => decide (400 ≤ s)

/-- The fetch outcomes `_search_region` degrades to an empty list: a
raised client error, a status `≥ 400`, or a body with no listing-wrapper
fragments. -/
def fetchDegraded : FetchResult → Bool
  | .failure _ => true
  | .response s cards => decide (400 ≤ s) || decide (cards = [])

/-- The body of `_search_region` (lines 119–152) before its catch-all
handler: raise on a failed fetch or a `≥ 400` status; return `[]` when no
product cards are found; otherwise truncate the card list to
`max_products`, run the extractor over each truncated card, and keep the
non-`None` results. -/
def searchRegionBody (maxProducts : Nat) (f : FetchResult) (region : String) :
    Except String (List Product) :=
  match f with
  | .failure m => .error m
  | .response status cards =>
    if 400 ≤ status then .error "ClientResponseError"
    else if cards = [] then .ok []
    else .ok (((cards.take maxProducts).map fun c =>
      extractProductData c region).filterMap id)

/-- `EbayPriceScraper._search_region` (lines 117–156): the body wrapped in
the `except Exception` handler that turns any raised error into the empty
list.  The HTTP layer is the environment `env`, mapping (query, region) to
the fetch outcome. -/
def searchRegion (maxProducts : Nat) (env : String → String → FetchResult)
    (query region : String) : List Product :=
  match searchRegionBody maxProducts (env query region) region with
  | .ok ps => ps
  | .error _ => []

/-- `EbayPriceScraper.search` (lines 158–172): one `_search_region` task
per element of `self.regions`, results flattened in region order. -/
def search (maxProducts : Nat) (env : String → String → FetchResult)
    (query : String) (regions : List String) : List Product :=
  (regions.map fun r => searchRegion maxProducts env query r).flatten

/-- `EbayPriceScraper.__init__` (line 61): `self.regions = regions or ['us']` —
`None` or the empty list fall back to `['us']`; any non-empty list is
stored exactly as given. -/
def initRegions (regions : Option (List String)) : List String :=
  match regions with
  | some (r :: rs) => r :: rs
  | _ => ["us"]

/-- Default of the `max_products` configuration (line 58). -/
def defaultMaxProducts : Nat := 5

/-- Outcome of one attempt to write an Excel file at a given path:
`permissionError` models the destination being locked
(`PermissionError`), `otherError` any other raised save failure. -/
inductive WriteOutcome where
  | success
  | permissionError
  | otherError (msg : String)
deriving DecidableEq, Repr

/-- What `ExcelExporter.export` does as seen by its caller: return a file
name, raise an error, or — since the source re-invokes itself on every
`PermissionError` with no bound — fail to terminate within the modeled
fuel. -/
inductive ExportResult where
  | ok (filename : String)
  | err (msg : String)
  | diverged
deriving DecidableEq, Repr

/-- Index of the last occurrence of `c` in `l`, if any. -/
def lastIdxOf (c : Char) (l : List Char) : Option Nat :=
  ((l.enum.filter (fun p => p.2 == c)).map (fun p => p.1)).getLast?

/-- `os.path.splitext` (POSIX): split at the last dot that lies in the
final path component and is preceded there by at least one non-dot
character. -/
def splitext (p : String) : String × String :=
  let cs := p.data
  let base : Nat :=
    match lastIdxOf '/' cs with
    | some i => i + 1
    | none => 0
  match lastIdxOf '.' cs with
  | none => (p, "")
  | some d =>
    if base ≤ d ∧ ((cs.drop base).take (d - base)).any (fun ch => ch != '.') then
      (⟨cs.take d⟩, ⟨cs.drop d⟩)
    else (p, "")

/-- The output file name `export` builds when none is supplied (line 200):
`f"{query.replace(' ', '_')}_{timestamp}_{self.filename_prefix}.xlsx"`. -/
def defaultFilename (query stem timestamp : String) : String :=
  pyReplaceSpace query ++ "_" ++ timestamp ++ "_" ++ stem ++ ".xlsx"

/-- `ExcelExporter.export` (lines 181–240) over an abstract filesystem
`fs`.  `stem` is the exporter's `filename_prefix` configuration;
`timestamp` stands for `datetime.now().strftime(...)`.  Returns the
caller-visible outcome together with the list of file names a write was
attempted on.  Empty input raises `ValueError` before touching any file;
a `PermissionError` triggers a recursive retry under
`f"{base}_new{ext}"`; any other save failure is re-raised.  The source
bounds the `PermissionError` recursion in no way, so the embedding spends
one unit of fuel per attempt and reports `diverged` when fuel runs out. -/
def exportProducts (stem : String) (fs : String → WriteOutcome) :
    Nat → List Product → String → Option String → String →
    ExportResult × List String
  | _, [], _, _, _ => (.err "No products to export", [])
  | 0, _ :: _, _, _, _ => (.diverged, [])
  | fuel + 1, p :: ps, query, outputFile, timestamp =>
    let outFile :=
      match outputFile with
      | some f => if f = "" then defaultFilename query stem timestamp else f
      | none => defaultFilename query stem timestamp
    match fs outFile with
    | .success => (.ok outFile, [outFile])
    | .permissionError =>
      let next := (splitext outFile).1 ++ "_new" ++ (splitext outFile).2
      let r := exportProducts stem fs fuel (p :: ps) query (some next) timestamp
      (r.1, outFile :: r.2)
    | .otherError m => (.err m, [outFile])

/-- Fixture: a valid listing card (scenario A of the spec). -/
def cardA : Node :=
  .node [] (some "Vintage Camera Lens 50mm") (some "$45.00")
    (some (some "https://www.ebay.com/itm/123?hash=x"))

/-- Fixture: a second valid listing card. -/
def cardB : Node :=
  .node [] (some "Antique Brass Telescope") (some "$30.00")
    (some (some "https://www.ebay.com/itm/456?hash=y"))

/-- The product `cardA` extracts to in region `us`. -/
def productA : Product :=
  ⟨"Vintage Camera Lens 50mm", "$45.00", "https://www.ebay.com/itm/123", "eBay (US)"⟩

/-- The product `cardB` extracts to in region `us`. -/
def productB : Product :=
  ⟨"Antique Brass Telescope", "$30.00", "https://www.ebay.com/itm/456", "eBay (US)"⟩

/-- Fixture environment for scenario B: region `us` answers 200 with two
valid cards, every other region answers a 500 status. -/
def envB : String → String → FetchResult := fun _ r =>
  if r = "us" then .response 200 [cardA, cardB] else .response 500 []

/-- Fixture environment: every fetch answers 200 with one valid card. -/
def envDup : String → String → FetchResult := fun _ _ =>
  .response 200 [cardA]

/-- Fixture environment: every fetch answers a 301 status whose body still
contains one valid card. -/
def env301 : String → String → FetchResult := fun _ _ =>
  .response 301 [cardA]

/-- Fixture filesystem: `out.xlsx` and `out_new.xlsx` are locked, every
other destination is writable. -/
def fsLockedTwice : String → WriteOutcome := fun f =>
  if f = "out.xlsx" then .permissionError
  else if f = "out_new.xlsx" then .permissionError
  else .success

/-- Fixture filesystem: `a.xlsx` is locked, writing `b.xlsx` fails with a
non-permission error, everything else is writable. -/
def fsMixed : String → WriteOutcome := fun f =>
  if f = "a.xlsx" then .permissionError
  else if f = "b.xlsx" then .otherError "disk full"
  else .success

theorem extractCore_some_inv (cs : List String) (t p : Option String)
    (l : Option (Option String)) (region : String) (pr : Product)
    (h : extractCore cs t p l region = some pr) :
    (∃ rawTitle, t = some rawTitle ∧ pr.name = pyStrip rawTitle) ∧
    5 < pr.name.length ∧ pr.name ≠ "" ∧
    ∃ rawPrice, p = some rawPrice ∧ pr.price = pyStrip rawPrice ∧
      strContains (pyLower rawPrice) "to" = false := by
  cases t with
  | none => simp [extractCore] at h
  | some rawTitle =>
    cases p with
    | none => simp [extractCore] at h
    | some rawPrice =>
      cases l with
      | none => simp [extractCore] at h
      | some lo =>
        cases lo with
        | none => simp [extractCore] at h
        | some href =>
          simp only [extractCore] at h
          split_ifs at h with h1 h2 h3 h4 h5 h6
          injection h with h
          subst h
          obtain ⟨hn1, hn2, hn3, hn4⟩ := h6
          refine ⟨⟨rawTitle, rfl, rfl⟩, hn4, hn1, rawPrice, rfl, rfl, ?_⟩
          simpa using h4

theorem extract_some_inv (c : Node) (region : String) (pr : Product)
    (h : extractProductData c region = some pr) :
    5 < pr.name.length ∧ pr.name ≠ "" ∧
    ∃ rawPrice, pr.price = pyStrip rawPrice ∧
      strContains (pyLower rawPrice) "to" = false := by
  cases c with
  | malformed m => simp [extractProductData, extractStep] at h
  | node cs t p l =>
    have h2 : extractCore cs t p l region = some pr := h
    obtain ⟨_, hlen, hne, rawPrice, _, hpr, hto⟩ := extractCore_some_inv cs t p l region pr h2
    exact ⟨hlen, hne, rawPrice, hpr, hto⟩

theorem mem_extract_of_mem_filterMap {l : List Node} {region : String} {pr : Product}
    (h : pr ∈ (l.map fun c => extractProductData c region).filterMap id) :
    ∃ c, extractProductData c region = some pr := by
  simp only [List.mem_filterMap, List.mem_map, id] at h
  obtain ⟨a, ⟨c, hcl, rfl⟩, ha⟩ := h
  exact ⟨c, ha⟩

theorem searchRegion_mem (maxProducts : Nat) (env : String → String → FetchResult)
    (query region : String) (pr : Product)
    (h : pr ∈ searchRegion maxProducts env query region) :
    ∃ c, extractProductData c region = some pr := by
  unfold searchRegion searchRegionBody at h
  cases henv : env query region with
  | failure m => rw [henv] at h; simp at h
  | response status cards =>
    rw [henv] at h
    by_cases hs : 400 ≤ status
    · simp [hs] at h
    · by_cases hc : cards = []
      · simp [hs, hc] at h
      · simp only [hs, hc, if_neg, if_false, ite_false] at h
        exact mem_extract_of_mem_filterMap (l := cards.take maxProducts) (by simpa using h)

/-- C1: `search` is the concatenation of the per-region lists in configured
order, and a region whose fetch raises contributes an empty list, leaving
every other region's products present and in order. -/
theorem search_isolates_failure (maxProducts : Nat)
    (env : String → String → FetchResult) (query : String)
    (rs1 rs2 : List String) (r : String)
    (hf : fetchRaises (env query r) = true) :
    search maxProducts env query (rs1 ++ r :: rs2)
      = ((rs1 ++ r :: rs2).map fun x => searchRegion maxProducts env query x).flatten
    ∧ searchRegion maxProducts env query r = []
    ∧ search maxProducts env query (rs1 ++ r :: rs2)
        = search maxProducts env query rs1 ++ search maxProducts env query rs2 := by
  have hr : searchRegion maxProducts env query r = [] := by
    cases henv : env query r with
    | failure m => simp [searchRegion, searchRegionBody, henv]
    | response status cards =>
      have hs : 400 ≤ status := by
        have h2 := hf
        rw [henv] at h2
        simpa [fetchRaises] using h2
      simp [searchRegion, searchRegionBody, henv, hs]
  refine ⟨rfl, hr, ?_⟩
  simp [search, List.map_append, List.flatten_append, hr]

/-- C1 witness: scenario B — `us` answers two valid products, `uk` answers
a 500 status; the search returns exactly the two `us` products. -/
theorem search_isolates_failure_witness :
    (fetchRaises (envB "camera" "uk") = true)
    ∧ (search 5 envB "camera" (["us"] ++ "uk" :: [])
        = ((["us"] ++ "uk" :: []).map fun x => searchRegion 5 envB "camera" x).flatten
      ∧ searchRegion 5 envB "camera" "uk" = []
      ∧ search 5 envB "camera" (["us"] ++ "uk" :: [])
          = search 5 envB "camera" ["us"] ++ search 5 envB "camera" [])
    ∧ search 5 envB "camera" ["us", "uk"] = [productA, productB] :=
  ⟨by decide,
   search_isolates_failure 5 envB "camera" ["us"] [] "uk" (by decide),
   by decide⟩
/-- C2 counterexample: a fragment whose trimmed title is longer than 5
characters and differs from the placeholder "shop on ebay" under
case-insensitive *equality*, yet contains it as a substring; all other
spec conditions hold, but the code rejects the card. -/
theorem extract_placeholder_substring_cex :
    (5 < (pyStrip "Nice shop on eBay find").length
      ∧ pyLower (pyStrip "Nice shop on eBay find") ≠ "shop on ebay"
      ∧ strContains "Nice shop on eBay find" "New Listing" = false
      ∧ strContains (pyLower "$5.00") "to" = false
      ∧ pySplitHeadQ "http://e.com/itm/1?x=1" ≠ "")
    ∧ extractProductData (.node [] (some "Nice shop on eBay find") (some "$5.00")
        (some (some "http://e.com/itm/1?x=1"))) "us" = none := by decide

/-- C2 (amended): when no rejection rule of the code applies — no sponsored
marker, a title without the new-listing marker whose trimmed text is longer
than 5 characters and does not *contain* "shop on ebay" case-insensitively,
a price element whose text is no range and whose trimmed text is non-empty,
and an anchor whose href is non-empty and stays non-empty after stripping
the query string — the extractor returns the Product with trimmed name,
trimmed price, query-stripped url and site tag `eBay (<REGION_UPPERCASE>)`. -/
theorem extract_valid_fields (cs : List String) (rawTitle rawPrice href region : String)
    (h1 : "srp-river-answer" ∉ cs)
    (h2 : strContains rawTitle "New Listing" = false)
    (h3 : strContains (pyLower (pyStrip rawTitle)) "shop on ebay" = false)
    (h4 : 5 < (pyStrip rawTitle).length)
    (h5 : strContains (pyLower rawPrice) "to" = false)
    (h6 : pyStrip rawPrice ≠ "")
    (h7 : href ≠ "")
    (h8 : pySplitHeadQ href ≠ "") :
    extractProductData (.node cs (some rawTitle) (some rawPrice) (some (some href))) region
      = some ⟨pyStrip rawTitle, pyStrip rawPrice, pySplitHeadQ href,
          "eBay (" ++ pyUpper region ++ ")"⟩ := by
  have hname : pyStrip rawTitle ≠ "Shop on eBay" := by
    intro he
    rw [he] at h3
    exact absurd h3 (by decide)
  have hnil : pyStrip rawTitle ≠ "" := by
    intro he
    rw [he] at h4
    exact absurd h4 (by decide)
  simp [extractProductData, extractStep, extractCore, h1, h2, h3, h5, h6, h7, h8, h4,
    hname, hnil]

/-- C2 witness: the valid card of scenario A is accepted with the stated
fields. -/
theorem extract_valid_fields_witness :
    ("srp-river-answer" ∉ ([] : List String)
      ∧ strContains "Vintage Camera Lens 50mm" "New Listing" = false
      ∧ strContains (pyLower (pyStrip "Vintage Camera Lens 50mm")) "shop on ebay" = false
      ∧ 5 < (pyStrip "Vintage Camera Lens 50mm").length
      ∧ strContains (pyLower "$45.00") "to" = false
      ∧ pyStrip "$45.00" ≠ ""
      ∧ ("https://www.ebay.com/itm/123?hash=x" : String) ≠ ""
      ∧ pySplitHeadQ "https://www.ebay.com/itm/123?hash=x" ≠ "")
    ∧ extractProductData (.node [] (some "Vintage Camera Lens 50mm") (some "$45.00")
        (some (some "https://www.ebay.com/itm/123?hash=x"))) "us"
      = some ⟨pyStrip "Vintage Camera Lens 50mm", pyStrip "$45.00",
          pySplitHeadQ "https://www.ebay.com/itm/123?hash=x",
          "eBay (" ++ pyUpper "us" ++ ")"⟩ :=
  ⟨⟨by decide, by decide, by decide, by decide, by decide, by decide, by decide, by decide⟩,
   extract_valid_fields [] "Vintage Camera Lens 50mm" "$45.00"
     "https://www.ebay.com/itm/123?hash=x" "us" (by decide) (by decide) (by decide)
     (by decide) (by decide) (by decide) (by decide) (by decide)⟩

/-- C3: whenever the extraction body raises (`Except.error`), the
caller-visible `_extract_product_data` returns the rejection value `None`
instead of propagating the exception. -/
theorem extract_anomaly_returns_none (c : Node) (region m : String)
    (h : extractStep c region = .error m) :
    extractProductData c region = none := by
  unfold extractProductData
  rw [h]

/-- C3 witness: a malformed node raises inside the body and the extractor
returns `none`. -/
theorem extract_anomaly_returns_none_witness :
    (extractStep (Node.malformed "boom") "us" = Except.error "boom")
    ∧ extractProductData (Node.malformed "boom") "us" = none :=
  ⟨rfl, extract_anomaly_returns_none (Node.malformed "boom") "us" "boom" rfl⟩

/-- C4 counterexample: a 301 response — a non-2xx status — whose body still
holds a valid card is *not* degraded to the empty list: the region returns
that card's product, because `raise_for_status` only fires at `≥ 400`. -/
theorem region_non2xx_cex :
    (¬ (200 ≤ 301 ∧ 301 < 300))
    ∧ searchRegion 5 env301 "camera" "us" = [productA]
    ∧ searchRegion 5 env301 "camera" "us" ≠ [] := by decide

/-- C4 (amended): `_search_region` returns the empty list and lets no
exception escape whenever the fetch raises (network, timeout, TLS), the
status is `≥ 400`, or the body holds no listing-wrapper fragments. -/
theorem region_failure_empty (maxProducts : Nat)
    (env : String → String → FetchResult) (query region : String)
    (h : fetchDegraded (env query region) = true) :
    searchRegion maxProducts env query region = [] := by
  cases henv : env query region with
  | failure m => simp [searchRegion, searchRegionBody, henv]
  | response status cards =>
    rw [henv] at h
    simp only [fetchDegraded, Bool.or_eq_true, decide_eq_true_eq] at h
    by_cases hs : 400 ≤ status
    · simp [searchRegion, searchRegionBody, henv, hs]
    · have hc : cards = [] := by
        rcases h with h | h
        · exact absurd h hs
        · exact h
      simp [searchRegion, searchRegionBody, henv, hs, hc]

/-- C4 witness: the 500-status region of scenario B degrades to the empty
list. -/
theorem region_failure_empty_witness :
    (fetchDegraded (envB "camera" "uk") = true)
    ∧ searchRegion 5 envB "camera" "uk" = [] :=
  ⟨by decide, region_failure_empty 5 envB "camera" "uk" (by decide)⟩

/-- C5: a fragment whose price text contains "to" in any letter case is
rejected, whatever its other fields hold. -/
theorem extract_rejects_price_range (cs : List String) (t : Option String)
    (rawPrice : String) (l : Option (Option String)) (region : String)
    (h : strContains (pyLower rawPrice) "to" = true) :
    extractProductData (.node cs t (some rawPrice) l) region = none := by
  cases t with
  | none => simp [extractProductData, extractStep, extractCore]
  | some rawTitle => simp [extractProductData, extractStep, extractCore, h]

/-- C5 witness: the price-range card of scenario A is rejected. -/
theorem extract_rejects_price_range_witness :
    (strContains (pyLower "$10.00 to $20.00") "to" = true)
    ∧ extractProductData (.node [] (some "Vintage Camera Lens 50mm")
        (some "$10.00 to $20.00") (some (some "https://www.ebay.com/itm/123"))) "us"
      = none :=
  ⟨by decide,
   extract_rejects_price_range [] (some "Vintage Camera Lens 50mm") "$10.00 to $20.00"
     (some (some "https://www.ebay.com/itm/123")) "us" (by decide)⟩
/-- C6: every product of a region batch or of the flattened search result
is in the image of the extractor for its region — in particular its
(already trimmed) name is non-empty and longer than 5 characters, and its
price is the trimmed text of a price that denotes no range. -/
theorem batch_satisfies_acceptance (maxProducts : Nat)
    (env : String → String → FetchResult) (query region : String)
    (rs : List String) (pr : Product) :
    (pr ∈ searchRegion maxProducts env query region →
      (∃ c, extractProductData c region = some pr)
      ∧ 5 < pr.name.length ∧ pr.name ≠ ""
      ∧ ∃ rawPrice, pr.price = pyStrip rawPrice
          ∧ strContains (pyLower rawPrice) "to" = false)
    ∧ (pr ∈ search maxProducts env query rs →
      ∃ r, r ∈ rs
        ∧ (∃ c, extractProductData c r = some pr)
        ∧ 5 < pr.name.length ∧ pr.name ≠ ""
        ∧ ∃ rawPrice, pr.price = pyStrip rawPrice
            ∧ strContains (pyLower rawPrice) "to" = false) := by
  constructor
  · intro h
    obtain ⟨c, hc⟩ := searchRegion_mem maxProducts env query region pr h
    obtain ⟨hlen, hne, rawPrice, hpr, hto⟩ := extract_some_inv c region pr hc
    exact ⟨⟨c, hc⟩, hlen, hne, rawPrice, hpr, hto⟩
  · intro h
    simp only [search, List.mem_flatten, List.mem_map] at h
    obtain ⟨l, ⟨r, hr, rfl⟩, hl⟩ := h
    obtain ⟨c, hc⟩ := searchRegion_mem maxProducts env query r pr hl
    obtain ⟨hlen, hne, rawPrice, hpr, hto⟩ := extract_some_inv c r pr hc
    exact ⟨r, hr, ⟨c, hc⟩, hlen, hne, rawPrice, hpr, hto⟩

/-- C6 witness: the product extracted from `cardA` sits in the `us` batch
and satisfies the acceptance properties. -/
theorem batch_satisfies_acceptance_witness :
    (productA ∈ searchRegion 5 envDup "camera" "us")
    ∧ ((∃ c, extractProductData c "us" = some productA)
      ∧ 5 < productA.name.length ∧ productA.name ≠ ""
      ∧ ∃ rawPrice, productA.price = pyStrip rawPrice
          ∧ strContains (pyLower rawPrice) "to" = false) :=
  ⟨by decide,
   (batch_satisfies_acceptance 5 envDup "camera" "us" ["us"] productA).1 (by decide)⟩

/-- C7: with a positive cap, a region that got a usable response truncates
its card list to `max_products` items before extraction, so the returned
batch has at most `max_products` products. -/
theorem region_truncates_before_extraction (maxProducts : Nat) (hpos : 0 < maxProducts)
    (env : String → String → FetchResult) (query region : String)
    (status : Nat) (cards : List Node)
    (hs : ¬ 400 ≤ status) (hc : cards ≠ [])
    (henv : env query region = .response status cards) :
    searchRegion maxProducts env query region
      = ((cards.take maxProducts).map fun c => extractProductData c region).filterMap id
    ∧ (searchRegion maxProducts env query region).length ≤ maxProducts := by
  have heq : searchRegion maxProducts env query region
      = ((cards.take maxProducts).map fun c => extractProductData c region).filterMap id := by
    simp [searchRegion, searchRegionBody, henv, hs, hc]
  refine ⟨heq, ?_⟩
  rw [heq]
  refine le_trans (List.length_filterMap_le _ _) ?_
  rw [List.length_map]
  exact List.length_take_le _ _

/-- C7 witness: cap 1 against a 200 response with two cards. -/
theorem region_truncates_before_extraction_witness :
    (0 < 1 ∧ ¬ 400 ≤ 200 ∧ ([cardA, cardB] : List Node) ≠ []
      ∧ envB "camera" "us" = FetchResult.response 200 [cardA, cardB])
    ∧ (searchRegion 1 envB "camera" "us"
        = (([cardA, cardB].take 1).map fun c => extractProductData c "us").filterMap id
      ∧ (searchRegion 1 envB "camera" "us").length ≤ 1) :=
  ⟨⟨by decide, by decide, by decide, rfl⟩,
   region_truncates_before_extraction 1 (by decide) envB "camera" "us" 200 [cardA, cardB]
     (by decide) (by decide) rfl⟩

/-- C8 counterexample: `__init__` keeps a duplicated region list as given,
and `search` over `["us", "us"]` fetches twice and returns the region's
products twice — not the result of the deduplicated list `["us"]`. -/
theorem search_duplicates_cex :
    initRegions (some ["us", "us"]) = ["us", "us"]
    ∧ search 5 envDup "camera" ["us", "us"] = [productA, productA]
    ∧ search 5 envDup "camera" ["us"] = [productA]
    ∧ search 5 envDup "camera" ["us", "us"] ≠ search 5 envDup "camera" ["us"] := by decide

/-- C8 (amended): the configured region list is processed one fetch per
list element, duplicates included, and the result is the concatenation of
the per-element batches in list order. -/
theorem search_processes_each_occurrence (maxProducts : Nat)
    (env : String → String → FetchResult) (query : String)
    (r : String) (xs ys : List String) :
    search maxProducts env query (xs ++ ys)
      = search maxProducts env query xs ++ search maxProducts env query ys
    ∧ search maxProducts env query (r :: ys)
      = searchRegion maxProducts env query r ++ search maxProducts env query ys := by
  constructor <;> simp [search, List.map_append, List.flatten_append]

/-- C9: exporting an empty product list raises `ValueError` and attempts
no file write at all, for every filesystem, fuel, query, output name and
timestamp. -/
theorem export_refuses_empty (stem : String) (fs : String → WriteOutcome)
    (fuel : Nat) (query : String) (outputFile : Option String) (timestamp : String) :
    exportProducts stem fs fuel [] query outputFile timestamp
      = (ExportResult.err "No products to export", []) := by
  cases fuel <;> rfl

/-- C10 counterexample: with the destination and its first `_new` variant
both locked, the exporter performs a *third* attempt (and succeeds) instead
of failing after a single retry. -/
theorem export_retries_unboundedly_cex :
    (fsLockedTwice "out.xlsx" = WriteOutcome.permissionError
      ∧ fsLockedTwice "out_new.xlsx" = WriteOutcome.permissionError)
    ∧ exportProducts "p" fsLockedTwice 10 [productA] "q" (some "out.xlsx") "ts"
      = (ExportResult.ok "out_new_new.xlsx",
         ["out.xlsx", "out_new.xlsx", "out_new_new.xlsx"]) := by decide

/-- C10 (amended): a locked destination is retried under the `_new`
alternate name with no retry bound — each `PermissionError` spends one
attempt and recurses — while any non-permission save failure is fatal and
reported to the caller at once. -/
theorem export_retry_step (stem : String) (fs : String → WriteOutcome)
    (fuel : Nat) (p : Product) (ps : List Product) (query f g ts m : String)
    (hf : f ≠ "") (hperm : fs f = .permissionError)
    (hg : g ≠ "") (hother : fs g = .otherError m) :
    exportProducts stem fs (fuel + 1) (p :: ps) query (some f) ts
      = ((exportProducts stem fs fuel (p :: ps) query
            (some ((splitext f).1 ++ "_new" ++ (splitext f).2)) ts).1,
         f :: (exportProducts stem fs fuel (p :: ps) query
            (some ((splitext f).1 ++ "_new" ++ (splitext f).2)) ts).2)
    ∧ exportProducts stem fs (fuel + 1) (p :: ps) query (some g) ts
      = (ExportResult.err m, [g]) := by
  constructor
  · simp [exportProducts, hf, hperm]
  · simp [exportProducts, hg, hother]

/-- C10 witness: one locked destination recurses under the `_new` name; a
"disk full" destination is fatal immediately. -/
theorem export_retry_step_witness :
    (("a.xlsx" : String) ≠ "" ∧ fsMixed "a.xlsx" = WriteOutcome.permissionError
      ∧ ("b.xlsx" : String) ≠ "" ∧ fsMixed "b.xlsx" = WriteOutcome.otherError "disk full")
    ∧ (exportProducts "p" fsMixed 4 [productA] "q" (some "a.xlsx") "ts"
        = ((exportProducts "p" fsMixed 3 [productA] "q"
              (some ((splitext "a.xlsx").1 ++ "_new" ++ (splitext "a.xlsx").2)) "ts").1,
           "a.xlsx" :: (exportProducts "p" fsMixed 3 [productA] "q"
              (some ((splitext "a.xlsx").1 ++ "_new" ++ (splitext "a.xlsx").2)) "ts").2)
      ∧ exportProducts "p" fsMixed 4 [productA] "q" (some "b.xlsx") "ts"
        = (ExportResult.err "disk full", ["b.xlsx"])) :=
  ⟨⟨by decide, rfl, by decide, rfl⟩,
   export_retry_step "p" fsMixed 3 productA [] "q" "a.xlsx" "b.xlsx" "ts" "disk full"
     (by decide) rfl (by decide) rfl⟩
end PriceFinder
